import Mathlib

/-!
Shallow embedding of `src/.ycm_extra_conf.py` from libjvs.

The file defines a single Python function:

    def FlagsForFile(filename, **kwargs):
      return {
        'flags': [
          '-x', 'c',
          '-Wall', '-Wpointer-arith',
          '-std=gnu99',
          '-fPIC',
          '-D_GNU_SOURCE',
          '-I.', '-I' + os.environ['HOME'] + '/include'
        ],
      }

The process environment is modelled as an association list from variable
names to values; `os.environ[key]` is a dictionary lookup that raises
`KeyError` when the key is absent, modelled with `Except`.  The returned
Python dict is modelled as an association list from string keys to lists
of strings.
-/

/-- Python exception raised by a failed `os.environ[...]` subscript:
`KeyError` carrying the missing key. -/
inductive PyErr where
  | keyError (key : String)
deriving DecidableEq, Repr

/-- The process environment: a finite association of variable names to
string values, as exposed by Python's `os.environ`. -/
abbrev Env := List (String × String)

/-- Python's `os.environ[key]`: the stored value when the variable is set,
a `KeyError` otherwise. -/
def environGet (env : Env) (key : String) : Except PyErr String :=
  match env.lookup key with
  | some v => Except.ok v
  | none => Except.error (PyErr.keyError key)

/-- The list literal built on lines 5-12 of the source, as a function of the
value read for `HOME`: the nine compiler tokens in source order, the last
being the string concatenation `'-I' + os.environ['HOME'] + '/include'`. -/
def flagTokens (home : String) : List String :=
  ["-x", "c",
   "-Wall", "-Wpointer-arith",
   "-std=gnu99",
   "-fPIC",
   "-D_GNU_SOURCE",
   "-I.", "-I" ++ home ++ "/include"]

/-- `FlagsForFile(filename, **kwargs)` from `src/.ycm_extra_conf.py`.
The environment is passed explicitly; `filename` and the keyword options
appear as parameters exactly as in the source, where neither is read.
Evaluating the dict literal first evaluates `os.environ['HOME']`, so a
missing `HOME` aborts the call with the `KeyError` before any dict exists;
otherwise the call returns the one-entry dict mapping `'flags'` to the
token list. -/
def FlagsForFile (env : Env) (filename : String)
    (kwargs : List (String × String)) :
    Except PyErr (List (String × List String)) :=
  match environGet env "HOME" with
  | Except.error e => Except.error e
  | Except.ok home => Except.ok [("flags", flagTokens home)]

/-- Modelled from the spec: the repository's second near-duplicate
definition of the flag provider, which is not present under the given
source tree.  Per the spec (§4.1 point 3, §9 open question) it is the same
function except that its returned flag list lacks the language-standard
token; all remaining tokens are identical. -/
def flagTokensNoStd (home : String) : List String :=
  ["-x", "c",
   "-Wall", "-Wpointer-arith",
   "-fPIC",
   "-D_GNU_SOURCE",
   "-I.", "-I" ++ home ++ "/include"]

/-- Modelled from the spec: the second near-duplicate flag-provider entry
point, returning the same one-entry dict built from `flagTokensNoStd`. -/
def FlagsForFileNoStd (env : Env) (filename : String)
    (kwargs : List (String × String)) :
    Except PyErr (List (String × List String)) :=
  match environGet env "HOME" with
  | Except.error e => Except.error e
  | Except.ok home => Except.ok [("flags", flagTokensNoStd home)]

/-- The final include token always starts with the two characters `-I`,
so it is never the language-standard token. -/
lemma include_token_ne_std (home : String) :
    "-I" ++ home ++ "/include" ≠ "-std=gnu99" := by
  intro h
  have hd := congrArg String.data h
  simp [String.data_append] at hd

/-- Claim C1: with `HOME` set to `/home/alice`, calling the provider with
file path `foo.c` and no keyword options returns exactly the nine-token
flag list `['-x','c','-Wall','-Wpointer-arith','-std=gnu99','-fPIC',
'-D_GNU_SOURCE','-I.','-I/home/alice/include']`, in this fixed order. -/
theorem c1_alice_scenario (env : Env)
    (h : env.lookup "HOME" = some "/home/alice") :
    FlagsForFile env "foo.c" [] =
      Except.ok [("flags",
        ["-x", "c", "-Wall", "-Wpointer-arith", "-std=gnu99", "-fPIC",
         "-D_GNU_SOURCE", "-I.", "-I/home/alice/include"])] := by
  simp [FlagsForFile, environGet, h, flagTokens]

/-- Witness for C1 at the concrete environment `[("HOME", "/home/alice")]`. -/
theorem c1_alice_scenario_witness :
    FlagsForFile [("HOME", "/home/alice")] "foo.c" [] =
      Except.ok [("flags",
        ["-x", "c", "-Wall", "-Wpointer-arith", "-std=gnu99", "-fPIC",
         "-D_GNU_SOURCE", "-I.", "-I/home/alice/include"])] :=
  c1_alice_scenario [("HOME", "/home/alice")] rfl

/-- Claim C2: whenever `HOME` is set to a value `h`, the flag sequence
returned by the provider (for any file path and keyword options) contains
each of the tokens `-x`, `c`, `-Wall`, `-Wpointer-arith`, `-fPIC`,
`-D_GNU_SOURCE`, `-I.`, and the token `-I` ++ h ++ `/include`. -/
theorem c2_always_present_tokens (env : Env) (filename : String)
    (kwargs : List (String × String)) (h : String)
    (hh : env.lookup "HOME" = some h) :
    ∃ fl : List String,
      FlagsForFile env filename kwargs = Except.ok [("flags", fl)] ∧
      "-x" ∈ fl ∧ "c" ∈ fl ∧ "-Wall" ∈ fl ∧ "-Wpointer-arith" ∈ fl ∧
      "-fPIC" ∈ fl ∧ "-D_GNU_SOURCE" ∈ fl ∧ "-I." ∈ fl ∧
      ("-I" ++ h ++ "/include") ∈ fl := by
  refine ⟨flagTokens h, ?_, ?_, ?_, ?_, ?_, ?_, ?_, ?_, ?_⟩ <;>
    simp [FlagsForFile, environGet, hh, flagTokens]

/-- Witness for C2 at `HOME = "/h"`, file path `a.c`, one keyword option. -/
theorem c2_always_present_tokens_witness :
    ∃ fl : List String,
      FlagsForFile [("HOME", "/h")] "a.c" [("client_data", "x")] =
        Except.ok [("flags", fl)] ∧
      "-x" ∈ fl ∧ "c" ∈ fl ∧ "-Wall" ∈ fl ∧ "-Wpointer-arith" ∈ fl ∧
      "-fPIC" ∈ fl ∧ "-D_GNU_SOURCE" ∈ fl ∧ "-I." ∈ fl ∧
      ("-I" ++ "/h" ++ "/include") ∈ fl :=
  c2_always_present_tokens [("HOME", "/h")] "a.c" [("client_data", "x")]
    "/h" rfl

/-- Claim C3: for every file path and keyword-option set, if `HOME` is
unset the provider fails with the `KeyError` for `HOME` (the
missing-environment-value error) and returns no partial result: the
returned value is exactly the error, which propagates to the caller. -/
theorem c3_missing_home_is_keyerror (env : Env) (filename : String)
    (kwargs : List (String × String))
    (h : env.lookup "HOME" = none) :
    FlagsForFile env filename kwargs =
      Except.error (PyErr.keyError "HOME") := by
  simp [FlagsForFile, environGet, h]

/-- Witness for C3 at the empty environment. -/
theorem c3_missing_home_is_keyerror_witness :
    FlagsForFile [] "foo.c" [] = Except.error (PyErr.keyError "HOME") :=
  c3_missing_home_is_keyerror [] "foo.c" [] rfl

/-- Claim C4: under one and the same environment, two invocations with
arbitrary (possibly different) file paths and keyword-option sets return
identical results: the output depends on neither argument. -/
theorem c4_path_and_options_independent (env : Env)
    (f1 f2 : String) (k1 k2 : List (String × String)) :
    FlagsForFile env f1 k1 = FlagsForFile env f2 k2 := rfl

/-- Claim C5: two consecutive calls with unchanged environment state and
the same arguments return element-for-element identical results. -/
theorem c5_idempotent (env1 env2 : Env) (filename : String)
    (kwargs : List (String × String)) (h : env1 = env2) :
    FlagsForFile env1 filename kwargs = FlagsForFile env2 filename kwargs :=
  by rw [h]

/-- Witness for C5 at a concrete unchanged environment. -/
theorem c5_idempotent_witness :
    FlagsForFile [("HOME", "/h")] "a.c" [] =
      FlagsForFile [("HOME", "/h")] "a.c" [] :=
  c5_idempotent [("HOME", "/h")] [("HOME", "/h")] "a.c" [] rfl

/-- Claim C6: every successful invocation returns a mapping holding the
single key `flags`, bound to an ordered list of strings. -/
theorem c6_result_shape (env : Env) (filename : String)
    (kwargs : List (String × String)) (c : List (String × List String))
    (h : FlagsForFile env filename kwargs = Except.ok c) :
    ∃ fl : List String, c = [("flags", fl)] := by
  revert h
  unfold FlagsForFile
  cases environGet env "HOME" with
  | error e => intro h; cases h
  | ok home => intro h; exact ⟨flagTokens home, (Except.ok.injEq _ _).mp h.symm⟩

/-- Witness for C6 at a concrete successful invocation. -/
theorem c6_result_shape_witness :
    ∃ fl : List String, [("flags", flagTokens "/h")] = [("flags", fl)] :=
  c6_result_shape [("HOME", "/h")] "a.c" [] [("flags", flagTokens "/h")] rfl

/-- Claim C7: whenever `HOME` is set, the provider succeeds for every
file path and keyword-option set: the result is `Except.ok` of the
one-entry dict, with no other failure path. -/
theorem c7_total_when_home_set (env : Env) (filename : String)
    (kwargs : List (String × String)) (h : String)
    (hh : env.lookup "HOME" = some h) :
    FlagsForFile env filename kwargs =
      Except.ok [("flags", flagTokens h)] := by
  simp [FlagsForFile, environGet, hh]

/-- Witness for C7 at a concrete environment with `HOME` set. -/
theorem c7_total_when_home_set_witness :
    FlagsForFile [("HOME", "/h")] "weird path\n" [("flags", "ignored")] =
      Except.ok [("flags", flagTokens "/h")] :=
  c7_total_when_home_set [("HOME", "/h")] "weird path\n"
    [("flags", "ignored")] "/h" rfl

/-- Claim C8: the two near-duplicate provider definitions differ only in
the language-standard token: for every environment with `HOME` set, the
`src` variant's flag list contains `-std=gnu99`, the spec-modelled second
variant's does not, and erasing that one token from the former yields
exactly the latter. -/
theorem c8_variants_differ_only_in_std (env : Env) (filename : String)
    (kwargs : List (String × String)) (h : String)
    (hh : env.lookup "HOME" = some h) :
    FlagsForFile env filename kwargs =
      Except.ok [("flags", flagTokens h)] ∧
    FlagsForFileNoStd env filename kwargs =
      Except.ok [("flags", flagTokensNoStd h)] ∧
    "-std=gnu99" ∈ flagTokens h ∧
    "-std=gnu99" ∉ flagTokensNoStd h ∧
    (flagTokens h).erase "-std=gnu99" = flagTokensNoStd h := by
  refine ⟨?_, ?_, ?_, ?_, ?_⟩
  · simp [FlagsForFile, environGet, hh]
  · simp [FlagsForFileNoStd, environGet, hh]
  · simp [flagTokens]
  · intro hmem
    simp only [flagTokensNoStd, List.mem_cons, List.mem_nil_iff,
      or_false] at hmem
    rcases hmem with h1 | h1 | h1 | h1 | h1 | h1 | h1 | h1 <;> first
      | exact absurd h1 (by decide)
      | exact include_token_ne_std h h1.symm
  · rfl

/-- Witness for C8 at `HOME = "/h"`. -/
theorem c8_variants_differ_only_in_std_witness :
    FlagsForFile [("HOME", "/h")] "a.c" [] =
      Except.ok [("flags", flagTokens "/h")] ∧
    FlagsForFileNoStd [("HOME", "/h")] "a.c" [] =
      Except.ok [("flags", flagTokensNoStd "/h")] ∧
    "-std=gnu99" ∈ flagTokens "/h" ∧
    "-std=gnu99" ∉ flagTokensNoStd "/h" ∧
    (flagTokens "/h").erase "-std=gnu99" = flagTokensNoStd "/h" :=
  c8_variants_differ_only_in_std [("HOME", "/h")] "a.c" [] "/h" rfl

/-- Claim C9: whenever `HOME` is set, the returned flag list contains the
language-standard token `-std=gnu99` unconditionally, at position 5
(index 4), between `-Wpointer-arith` (index 3) and `-fPIC` (index 5). -/
theorem c9_std_token_position (env : Env) (filename : String)
    (kwargs : List (String × String)) (h : String)
    (hh : env.lookup "HOME" = some h) :
    FlagsForFile env filename kwargs =
      Except.ok [("flags", flagTokens h)] ∧
    (flagTokens h)[3]? = some "-Wpointer-arith" ∧
    (flagTokens h)[4]? = some "-std=gnu99" ∧
    (flagTokens h)[5]? = some "-fPIC" := by
  exact ⟨by simp [FlagsForFile, environGet, hh], rfl, rfl, rfl⟩

/-- Witness for C9 at `HOME = "/h"`. -/
theorem c9_std_token_position_witness :
    FlagsForFile [("HOME", "/h")] "a.c" [] =
      Except.ok [("flags", flagTokens "/h")] ∧
    (flagTokens "/h")[3]? = some "-Wpointer-arith" ∧
    (flagTokens "/h")[4]? = some "-std=gnu99" ∧
    (flagTokens "/h")[5]? = some "-fPIC" :=
  c9_std_token_position [("HOME", "/h")] "a.c" [] "/h" rfl

/-- Claim C10: the `HOME` value is substituted verbatim into the final
include token: for every string `h` that `HOME` is set to, including the
empty string, the call succeeds and the last returned token is exactly
`-I` ++ h ++ `/include`. -/
theorem c10_verbatim_home_in_last_token (env : Env) (filename : String)
    (kwargs : List (String × String)) (h : String)
    (hh : env.lookup "HOME" = some h) :
    FlagsForFile env filename kwargs =
      Except.ok [("flags", flagTokens h)] ∧
    (flagTokens h).getLast? = some ("-I" ++ h ++ "/include") := by
  exact ⟨by simp [FlagsForFile, environGet, hh], rfl⟩

/-- Witness for C10 at the empty `HOME` value, where the last token is
exactly `-I/include` and no error is raised. -/
theorem c10_verbatim_home_in_last_token_witness :
    (FlagsForFile [("HOME", "")] "a.c" [] =
      Except.ok [("flags", flagTokens "")] ∧
    (flagTokens "").getLast? = some ("-I" ++ "" ++ "/include")) ∧
    "-I" ++ "" ++ "/include" = "-I/include" :=
  ⟨c10_verbatim_home_in_last_token [("HOME", "")] "a.c" [] "" rfl, rfl⟩
